import Mathlib

/-!
Verification of the Blender add-on integration module
`blender_importASE/__init__.py`.

The module is host-application glue: it declares an import operator
(`ImportASEMolecule`), an add-on preferences class (`ASEAddonPreferences`),
a dependency auto-installer (`check_dependency`), and the `register` and
`unregister` entry points.  We embed it shallowly:

* Python exceptions become an explicit `PyExc` value threaded through
  `Except`-shaped results; every embedded function returns its result (or
  the uncaught exception), the updated state, and a trace of the observable
  side effects it performed, in program order.
* The relevant Blender host API (`bpy.utils.register_class`,
  `bpy.utils.unregister_class`, `Menu.append`, `Menu.remove`) is embedded
  with its documented semantics: `register_class` raises `ValueError` on a
  class that is already registered, `unregister_class` raises
  `RuntimeError` on a class that is not registered, `Menu.append` appends a
  draw callback unconditionally, and `Menu.remove` removes the callback and
  swallows the `ValueError` when it is absent (Blender's
  `bpy_types._GenericUI.remove` wraps `list.remove` in
  `try/except ValueError: pass`).
* The environment-dependent outcomes of `import ase` and of the pip
  subprocess are an oracle `DepEnv`; `check_dependency` is a pure function
  of that oracle and of `sys.path`.
-/

namespace BlenderImportASE

/-- Python exception kinds that the module can raise or catch. `otherError`
stands for any exception class other than the ones the module mentions. -/
inductive PyExc where
  | calledProcessError
  | importError
  | runtimeError
  | valueError
  | otherError
deriving DecidableEq, Repr

/-- Outcome of a primitive Python operation that can raise. -/
inductive PyOutcome where
  | ok
  | raise (e : PyExc)
deriving DecidableEq, Repr

/-- Observable side effects of the module, recorded in program order. -/
inductive Action where
  | registerClass (c : String)
  | unregisterClass (c : String)
  | menuAppend (f : String)
  | menuRemove (f : String)
  | setInstallFailed (b : Bool)
  | consolePrint (m : String)
  | subprocessPipInstall (target : String)
  | sysPathAppend (p : String)
  | invalidateCaches
deriving DecidableEq, Repr

/-- Does the action touch the Blender class registry, the import menu, or
the add-on preferences?  `check_dependency` performs none of these. -/
def Action.touchesRegistry : Action → Bool
  | .registerClass _ => true
  | .unregisterClass _ => true
  | .menuAppend _ => true
  | .menuRemove _ => true
  | .setInstallFailed _ => true
  | _ => false

/-- Is the action an invocation of the pip installer subprocess? -/
def Action.isPipInstall : Action → Bool
  | .subprocessPipInstall _ => true
  | _ => false

/-- Number of occurrences of the action `a` in the trace `t`. -/
def countAction (t : List Action) (a : Action) : Nat :=
  t.countP fun b => decide (b = a)

/-- Environment oracle for `check_dependency`: what each of the three
environment-dependent operations in its body would do. -/
structure DepEnv where
  /-- outcome of the first `import ase` (line 188) -/
  importAseInitial : PyOutcome
  /-- outcome of `subprocess.check_call([python, "-m", "pip", "install",
  "--target", install_path, "ase"])` (line 196) -/
  pipInstallResult : PyOutcome
  /-- outcome of the `import ase` after the install (line 200) -/
  importAseAfterInstall : PyOutcome
  /-- `os.path.join(bpy.utils.script_path_user(), "modules")` (line 195) -/
  installPath : String
deriving DecidableEq, Repr

/-- The part of the Python process state that `check_dependency` reads and
writes: the module search path `sys.path`. -/
structure SysState where
  sysPath : List String
deriving DecidableEq, Repr

/-- Shallow embedding of `check_dependency` (lines 186-208).  Returns the
boolean result (or the uncaught exception), the updated `sys.path` state,
and the trace of side effects.  The outer `try` catches only `ImportError`
from the first `import ase`; the inner `try` catches `CalledProcessError`
from the pip subprocess and `ImportError` from the post-install import,
and any other exception propagates. -/
def check_dependency (env : DepEnv) (s : SysState) :
    Except PyExc Bool × SysState × List Action :=
  match env.importAseInitial with
  | .ok => (.ok true, s, [])
  | .raise e =>
    if e = PyExc.importError then
      let t0 : List Action :=
        [.consolePrint "ASE not present in Blender python. Attempting install. This could take a moment..."]
      match env.pipInstallResult with
      | .raise e2 =>
        let t1 := t0 ++ [Action.subprocessPipInstall env.installPath]
        if e2 = PyExc.calledProcessError then
          (.ok false, s, t1 ++ [Action.consolePrint "Failed to install ASE. Please check your internet connection and try again or install manually"])
        else
          (.error e2, s, t1)
      | .ok =>
        let t1 := t0 ++ [Action.subprocessPipInstall env.installPath]
        let s1 : SysState :=
          if env.installPath ∈ s.sysPath then s
          else { sysPath := s.sysPath ++ [env.installPath] }
        let t2 :=
          if env.installPath ∈ s.sysPath then t1
          else t1 ++ [Action.sysPathAppend env.installPath]
        let t3 := t2 ++ [Action.invalidateCaches]
        match env.importAseAfterInstall with
        | .ok => (.ok true, s1, t3 ++ [Action.consolePrint "Installed ASE"])
        | .raise e3 =>
          if e3 = PyExc.importError then
            (.ok false, s1, t3 ++ [Action.consolePrint "ASE not found after installation, check your blender installation"])
          else
            (.error e3, s1, t3)
    else
      (.error e, s, [])

/-- The Blender-visible state the module manipulates. -/
structure BState where
  /-- classes currently registered with `bpy.utils.register_class`,
  in registration order -/
  registered : List String
  /-- draw callbacks appended to `bpy.types.TOPBAR_MT_file_import` -/
  importMenu : List String
  /-- the `install_failed` property of the add-on preferences -/
  installFailed : Bool
  /-- `sys.path` -/
  sysPath : List String
deriving DecidableEq, Repr

/-- `bpy.utils.register_class`: registers the class; raises `ValueError`
if it is already registered. -/
def registerClassOp (c : String) (s : BState) :
    Except PyExc Unit × BState × List Action :=
  if c ∈ s.registered then (.error .valueError, s, [])
  else (.ok (), { s with registered := s.registered ++ [c] }, [.registerClass c])

/-- `bpy.utils.unregister_class`: unregisters the class; raises
`RuntimeError` if it is not registered. -/
def unregisterClassOp (c : String) (s : BState) :
    Except PyExc Unit × BState × List Action :=
  if c ∈ s.registered then
    (.ok (), { s with registered := s.registered.erase c }, [.unregisterClass c])
  else (.error .runtimeError, s, [])

/-- `bpy.types.TOPBAR_MT_file_import.append`: appends the draw callback
unconditionally. -/
def menuAppendOp (f : String) (s : BState) : BState × List Action :=
  ({ s with importMenu := s.importMenu ++ [f] }, [.menuAppend f])

/-- `bpy.types.TOPBAR_MT_file_import.remove`: removes the first occurrence
of the draw callback; when it is absent the `ValueError` is swallowed by
Blender's `_GenericUI.remove`, so this never raises. -/
def menuRemoveOp (f : String) (s : BState) : BState × List Action :=
  ({ s with importMenu := s.importMenu.erase f }, [.menuRemove f])

/-- Shallow embedding of `register` (lines 213-221).  Registers
`ASEAddonPreferences`, runs the dependency check, and either registers the
operator and appends the menu entry, or sets the preferences'
`install_failed` flag. -/
def register (env : DepEnv) (s : BState) :
    Except PyExc Unit × BState × List Action :=
  match registerClassOp "ASEAddonPreferences" s with
  | (.error e, s1, t1) => (.error e, s1, t1)
  | (.ok _, s1, t1) =>
    match check_dependency env ⟨s1.sysPath⟩ with
    | (.error e, sys2, t2) => (.error e, { s1 with sysPath := sys2.sysPath }, t1 ++ t2)
    | (.ok dep, sys2, t2) =>
      let s2 : BState := { s1 with sysPath := sys2.sysPath }
      if dep then
        match registerClassOp "ImportASEMolecule" s2 with
        | (.error e, s3, t3) => (.error e, s3, t1 ++ t2 ++ t3)
        | (.ok _, s3, t3) =>
          match menuAppendOp "menu_func_import" s3 with
          | (s4, t4) => (.ok (), s4, t1 ++ t2 ++ t3 ++ t4)
      else
        (.ok (), { s2 with installFailed := true },
          t1 ++ t2 ++ [Action.setInstallFailed true])

/-- Shallow embedding of `unregister` (lines 223-229).  The `try/except
RuntimeError` around the operator's unregistration is embedded by catching
the error of `unregisterClassOp` (which raises only `RuntimeError`); the
final `unregister_class(ASEAddonPreferences)` is not guarded, so its
`RuntimeError` propagates. -/
def unregister (s : BState) : Except PyExc Unit × BState × List Action :=
  let step1 : BState × List Action :=
    match unregisterClassOp "ImportASEMolecule" s with
    | (.ok _, s1, t1) => (s1, t1)
    | (.error _, s1, t1) =>
      (s1, t1 ++ [Action.consolePrint "ImportASEMolecule was not registered, skipping."])
  match menuRemoveOp "menu_func_import" step1.1 with
  | (s2, t2) =>
    match unregisterClassOp "ASEAddonPreferences" s2 with
    | (r, s3, t3) => (r, s3, step1.2 ++ t2 ++ t3)

/-- The add-on preferences class: its one property. -/
structure ASEAddonPreferences where
  install_failed : Bool
deriving DecidableEq, Repr

/-- Shallow embedding of `ASEAddonPreferences.draw` (lines 178-183): the
label text and icon the preferences panel displays. -/
def ASEAddonPreferences.draw (p : ASEAddonPreferences) : String × String :=
  if p.install_failed then
    ("ASE installation failed. Please check your internet connection.", "ERROR")
  else
    ("ASE installation successful.", "CHECKMARK")

/-- One element of the operator's `files` collection property
(`bpy.types.OperatorFileListElement`): its file name. -/
structure OperatorFileListElement where
  name : String
deriving DecidableEq, Repr

/-- The properties of the `ImportASEMolecule` operator (lines 35-129),
with the declared defaults.  Float-valued properties are carried as `Float`
values; the module never computes with them.  The enum property
`representation` is carried as its string identifier. -/
structure ImportASEMolecule where
  scale : Float := 0.5
  resolution : Int := 16
  colorbonds : Bool := false
  fix_bonds : Bool := true
  color : Float := 0.6
  unit_cell : Bool := false
  representation : String := "nodes"
  read_density : Bool := true
  zero_cell : Bool := false
  animate : Bool := true
  imageslice : Int := 1
  overwrite : Bool := true
  outline : Bool := true
  add_supercell : Bool := true
  files : List OperatorFileListElement := []
  directory : String := ""
deriving Repr

/-- `os.path.join` on two POSIX path components, as used on line 152: if
the second component is absolute it wins; otherwise the components are
joined, inserting a separator unless the first is empty or already ends
with one. -/
def osPathJoin (a b : String) : String :=
  if b.data.head? = some '/' then b
  else if a = "" then b
  else if a.data.getLast? = some '/' then a ++ b
  else a ++ "/" ++ b

/-- The arguments of one invocation of the external
`import_ase_molecule` function: the two positional arguments and the 14
keyword arguments, with the keyword names of the call site
(lines 157-166). -/
structure ImportCallArgs where
  filepath : String
  filename : String
  resolution : Int
  color : Float
  colorbonds : Bool
  fix_bonds : Bool
  scale : Float
  unit_cell : Bool
  representation : String
  read_density : Bool
  shift_cell : Bool
  imageslice : Int
  animate : Bool
  outline : Bool
  overwrite : Bool
  add_supercell : Bool
deriving Repr

/-- Shallow embedding of `ImportASEMolecule.execute` (lines 149-167): for
each element of `files` it invokes `import_ase_molecule` once, then returns
`{"FINISHED"}`.  The first component is the list of invocations in order;
the second is the returned status set. -/
def ImportASEMolecule.execute (op : ImportASEMolecule) :
    List ImportCallArgs × List String :=
  (op.files.map fun f =>
    { filepath := osPathJoin op.directory f.name
      filename := f.name
      resolution := op.resolution
      color := op.color
      colorbonds := op.colorbonds
      fix_bonds := op.fix_bonds
      scale := op.scale
      unit_cell := op.unit_cell
      representation := op.representation
      read_density := op.read_density
      shift_cell := op.zero_cell
      imageslice := op.imageslice
      animate := op.animate
      outline := op.outline
      overwrite := op.overwrite
      add_supercell := op.add_supercell },
   ["FINISHED"])

/-! ### Sample environments and states used by the witness theorems -/

/-- An environment in which `ase` imports directly. -/
def envAsePresent : DepEnv :=
  { importAseInitial := .ok, pipInstallResult := .ok,
    importAseAfterInstall := .ok, installPath := "/scripts/modules" }

/-- An environment in which the initial import fails and the pip install
subprocess exits non-zero. -/
def envPipFails : DepEnv :=
  { importAseInitial := .raise .importError,
    pipInstallResult := .raise .calledProcessError,
    importAseAfterInstall := .ok, installPath := "/scripts/modules" }

/-- An environment in which the initial import fails, the pip install
succeeds, and the post-install import succeeds. -/
def envInstallWorks : DepEnv :=
  { importAseInitial := .raise .importError, pipInstallResult := .ok,
    importAseAfterInstall := .ok, installPath := "/scripts/modules" }

/-- An environment in which the initial import fails, the pip install
succeeds, and the post-install import still fails. -/
def envImportStillFails : DepEnv :=
  { importAseInitial := .raise .importError, pipInstallResult := .ok,
    importAseAfterInstall := .raise .importError,
    installPath := "/scripts/modules" }

/-- A Blender state in which nothing of this add-on is present. -/
def emptyBState : BState :=
  { registered := [], importMenu := [], installFailed := false, sysPath := ["/base"] }

/-- Operator state with no selected file (all properties at their
declared defaults). -/
def opNoFiles : ImportASEMolecule := {}

/-- Operator state with a single selected file. -/
def opOneFile : ImportASEMolecule :=
  { files := [{ name := "mol.xyz" }], directory := "/data" }

/-- Operator state with two selected files. -/
def opTwoFiles : ImportASEMolecule :=
  { files := [{ name := "a.xyz" }, { name := "b.xyz" }], directory := "/data" }

/-- The invocation record that `execute` produces for `opOneFile`. -/
def callOneFile : ImportCallArgs :=
  { filepath := "/data/mol.xyz", filename := "mol.xyz", resolution := 16,
    color := 0.6, colorbonds := false, fix_bonds := true, scale := 0.5,
    unit_cell := false, representation := "nodes", read_density := true,
    shift_cell := false, imageslice := 1, animate := true, outline := true,
    overwrite := true, add_supercell := true }

/-! ### Lemmas about `check_dependency` -/

/-- The dependency check never touches the class registry, the import
menu, or the preferences flag: every action in its trace is a console
print, the pip subprocess, a `sys.path` append, or a cache invalidation. -/
theorem check_dependency_no_registry_action (env : DepEnv) (s : SysState) :
    ∀ a ∈ (check_dependency env s).2.2, a.touchesRegistry = false := by
  obtain ⟨i, p, q, ip⟩ := env
  cases i with
  | ok => simp [check_dependency]
  | raise e =>
    by_cases he : e = PyExc.importError
    · subst he
      cases p with
      | ok =>
        by_cases hm : ip ∈ s.sysPath <;>
          cases q with
          | ok =>
            simp [check_dependency, hm, Action.touchesRegistry]
          | raise e3 =>
            by_cases h3 : e3 = PyExc.importError <;>
              simp [check_dependency, hm, h3, Action.touchesRegistry]
      | raise e2 =>
        by_cases h2 : e2 = PyExc.calledProcessError <;>
          simp [check_dependency, h2, Action.touchesRegistry]
    · simp [check_dependency, he]

/-- No action in the dependency check's trace touches the registry, so any
registry action occurs zero times in it. -/
theorem check_dependency_count_registry_zero (env : DepEnv) (s : SysState)
    (a : Action) (ha : a.touchesRegistry = true) :
    countAction (check_dependency env s).2.2 a = 0 := by
  unfold countAction
  rw [List.countP_eq_zero]
  intro b hb
  simp only [decide_eq_true_eq]
  intro h
  subst h
  rw [check_dependency_no_registry_action env s b hb] at ha
  exact Bool.noConfusion ha

/-- C4: `check_dependency` recognizes exactly two failure kinds — a
`CalledProcessError` from the installer subprocess and an `ImportError` of
the dependency after installation.  It returns `False` (rather than
propagating an exception) exactly in those two situations, and in each of
them it prints the corresponding message. -/
theorem check_dependency_exactly_two_failures (env : DepEnv) (s : SysState) :
    ((check_dependency env s).1 = .ok false ↔
      (env.importAseInitial = .raise .importError ∧
        (env.pipInstallResult = .raise .calledProcessError ∨
          (env.pipInstallResult = .ok ∧
            env.importAseAfterInstall = .raise .importError)))) ∧
    (env.importAseInitial = .raise .importError →
      env.pipInstallResult = .raise .calledProcessError →
      Action.consolePrint "Failed to install ASE. Please check your internet connection and try again or install manually"
        ∈ (check_dependency env s).2.2) ∧
    (env.importAseInitial = .raise .importError →
      env.pipInstallResult = .ok →
      env.importAseAfterInstall = .raise .importError →
      Action.consolePrint "ASE not found after installation, check your blender installation"
        ∈ (check_dependency env s).2.2) := by
  obtain ⟨i, p, q, ip⟩ := env
  cases i with
  | ok => simp [check_dependency]
  | raise e =>
    by_cases he : e = PyExc.importError
    · subst he
      cases p with
      | ok =>
        by_cases hm : ip ∈ s.sysPath <;>
          cases q with
          | ok => simp [check_dependency, hm]
          | raise e3 =>
            by_cases h3 : e3 = PyExc.importError <;>
              simp [check_dependency, hm, h3]
      | raise e2 =>
        by_cases h2 : e2 = PyExc.calledProcessError <;>
          simp [check_dependency, h2]
    · simp [check_dependency, he, Ne.symm he]

/-- Witness for C4: in an environment where the initial import fails and
the pip subprocess exits non-zero, `check_dependency` returns `False`. -/
theorem check_dependency_exactly_two_failures_witness :
    (check_dependency envPipFails ⟨["/base"]⟩).1 = .ok false :=
  ((check_dependency_exactly_two_failures envPipFails ⟨["/base"]⟩).1).mpr
    ⟨rfl, Or.inl rfl⟩

/-- C7: when the initial import fails and the installer subprocess
succeeds, the install directory is appended to `sys.path` only if it is
not already present; afterwards it is present, and no duplicate entry is
created (its multiplicity is `max` of the old one and 1). -/
theorem check_dependency_syspath_append (env : DepEnv) (s : SysState)
    (hinit : env.importAseInitial = .raise .importError)
    (hpip : env.pipInstallResult = .ok) :
    (check_dependency env s).2.1.sysPath =
      (if env.installPath ∈ s.sysPath then s.sysPath
        else s.sysPath ++ [env.installPath]) ∧
    env.installPath ∈ (check_dependency env s).2.1.sysPath ∧
    (check_dependency env s).2.1.sysPath.count env.installPath =
      max (s.sysPath.count env.installPath) 1 := by
  obtain ⟨i, p, q, ip⟩ := env
  simp only at hinit hpip
  subst hinit
  subst hpip
  by_cases hm : ip ∈ s.sysPath
  · cases q with
    | ok =>
      refine ⟨by simp [check_dependency, hm], by simp [check_dependency, hm], ?_⟩
      have hpos : 0 < s.sysPath.count ip := List.count_pos_iff.mpr hm
      simp [check_dependency, hm]
    | raise e3 =>
      by_cases h3 : e3 = PyExc.importError
      · refine ⟨by simp [check_dependency, hm, h3], by simp [check_dependency, hm, h3], ?_⟩
        have hpos : 0 < s.sysPath.count ip := List.count_pos_iff.mpr hm
        simp [check_dependency, hm, h3]
      · refine ⟨by simp [check_dependency, hm, h3], by simp [check_dependency, hm, h3], ?_⟩
        have hpos : 0 < s.sysPath.count ip := List.count_pos_iff.mpr hm
        simp [check_dependency, hm, h3]
  · have hz : s.sysPath.count ip = 0 := List.count_eq_zero.mpr hm
    cases q with
    | ok =>
      refine ⟨by simp [check_dependency, hm], by simp [check_dependency, hm], ?_⟩
      simp [check_dependency, hm, hz]
    | raise e3 =>
      by_cases h3 : e3 = PyExc.importError
      · refine ⟨by simp [check_dependency, hm, h3], by simp [check_dependency, hm, h3], ?_⟩
        simp [check_dependency, hm, h3, hz]
      · refine ⟨by simp [check_dependency, hm, h3], by simp [check_dependency, hm, h3], ?_⟩
        simp [check_dependency, hm, h3, hz]

/-- Witness for C7: concrete run in which the install path is new — it
gets appended once. -/
theorem check_dependency_syspath_append_witness :
    (check_dependency envInstallWorks ⟨["/base"]⟩).2.1.sysPath =
      ["/base", "/scripts/modules"] := by
  have h := check_dependency_syspath_append envInstallWorks ⟨["/base"]⟩ rfl rfl
  rw [h.1]
  decide

/-- C8: in any single call, the installer subprocess is invoked at most
once (never when the dependency already imports), and a failing install
makes the function return `False`. -/
theorem check_dependency_single_pip_invocation (env : DepEnv) (s : SysState) :
    (check_dependency env s).2.2.countP Action.isPipInstall ≤ 1 ∧
    (env.importAseInitial = .ok →
      (check_dependency env s).2.2.countP Action.isPipInstall = 0) ∧
    (env.importAseInitial = .raise .importError →
      env.pipInstallResult = .raise .calledProcessError →
      (check_dependency env s).1 = .ok false) := by
  obtain ⟨i, p, q, ip⟩ := env
  cases i with
  | ok => simp [check_dependency]
  | raise e =>
    by_cases he : e = PyExc.importError
    · subst he
      cases p with
      | ok =>
        by_cases hm : ip ∈ s.sysPath <;>
          cases q with
          | ok => simp [check_dependency, hm, Action.isPipInstall]
          | raise e3 =>
            by_cases h3 : e3 = PyExc.importError <;>
              simp [check_dependency, hm, h3, Action.isPipInstall]
      | raise e2 =>
        by_cases h2 : e2 = PyExc.calledProcessError <;>
          simp [check_dependency, h2, Action.isPipInstall]
    · simp [check_dependency, he, Ne.symm he]

/-- Witness for C8: concrete failing-install run — one pip invocation,
result `False`. -/
theorem check_dependency_single_pip_invocation_witness :
    (check_dependency envPipFails ⟨[]⟩).2.2.countP Action.isPipInstall ≤ 1 ∧
    (check_dependency envPipFails ⟨[]⟩).1 = .ok false :=
  ⟨(check_dependency_single_pip_invocation envPipFails ⟨[]⟩).1,
    (check_dependency_single_pip_invocation envPipFails ⟨[]⟩).2.2 rfl rfl⟩

/-! ### Lemmas about `unregister` -/

/-- The state after `unregister`, uniformly over all branches: the
operator (first occurrence) and then the preferences class are erased from
the registry, and the menu callback is erased from the import menu. -/
theorem unregister_state_eq (s : BState) :
    (unregister s).2.1 =
      { s with
          registered :=
            (s.registered.erase "ImportASEMolecule").erase "ASEAddonPreferences",
          importMenu := s.importMenu.erase "menu_func_import" } := by
  by_cases hop : "ImportASEMolecule" ∈ s.registered
  · by_cases hpref :
        "ASEAddonPreferences" ∈ s.registered.erase "ImportASEMolecule"
    · simp [unregister, unregisterClassOp, menuRemoveOp, hop, hpref]
    · simp [unregister, unregisterClassOp, menuRemoveOp, hop, hpref,
        List.erase_of_not_mem hpref]
  · have he : s.registered.erase "ImportASEMolecule" = s.registered :=
      List.erase_of_not_mem hop
    by_cases hpref : "ASEAddonPreferences" ∈ s.registered
    · simp [unregister, unregisterClassOp, menuRemoveOp, hop, he, hpref]
    · simp [unregister, unregisterClassOp, menuRemoveOp, hop, he, hpref,
        List.erase_of_not_mem hpref]

/-- The result of `unregister`: it raises (`RuntimeError`) exactly when
`ASEAddonPreferences` is not registered once the operator has been
erased. -/
theorem unregister_result_eq (s : BState) :
    (unregister s).1 =
      (if "ASEAddonPreferences" ∈ s.registered.erase "ImportASEMolecule"
        then Except.ok () else Except.error PyExc.runtimeError) := by
  by_cases hop : "ImportASEMolecule" ∈ s.registered
  · by_cases hpref :
        "ASEAddonPreferences" ∈ s.registered.erase "ImportASEMolecule"
    · simp [unregister, unregisterClassOp, menuRemoveOp, hop, hpref]
    · simp [unregister, unregisterClassOp, menuRemoveOp, hop, hpref]
  · have he : s.registered.erase "ImportASEMolecule" = s.registered :=
      List.erase_of_not_mem hop
    by_cases hpref : "ASEAddonPreferences" ∈ s.registered
    · simp [unregister, unregisterClassOp, menuRemoveOp, hop, he, hpref]
    · simp [unregister, unregisterClassOp, menuRemoveOp, hop, he, hpref]

/-- C2: `unregister` is idempotent on the state — running it on the state
it produced (where everything it removes is already removed) changes
nothing — and it does not raise when the `ImportASEMolecule` operator was
never registered (the add-on's own `register` always registers
`ASEAddonPreferences`, whose presence is what the unguarded final
`unregister_class` needs). -/
theorem unregister_idempotent_and_safe (s : BState)
    (hnr : s.registered.Nodup) (hnm : s.importMenu.Nodup) :
    (unregister (unregister s).2.1).2.1 = (unregister s).2.1 ∧
    ("ImportASEMolecule" ∉ s.registered →
      "ASEAddonPreferences" ∈ s.registered →
      (unregister s).1 = Except.ok ()) := by
  constructor
  · rw [unregister_state_eq, unregister_state_eq]
    have hop1 : "ImportASEMolecule" ∉ s.registered.erase "ImportASEMolecule" :=
      hnr.not_mem_erase
    have hop2 : "ImportASEMolecule" ∉
        (s.registered.erase "ImportASEMolecule").erase "ASEAddonPreferences" :=
      fun h => hop1 (List.mem_of_mem_erase h)
    have hpref2 : "ASEAddonPreferences" ∉
        (s.registered.erase "ImportASEMolecule").erase "ASEAddonPreferences" :=
      (hnr.erase "ImportASEMolecule").not_mem_erase
    have hm2 : "menu_func_import" ∉
        s.importMenu.erase "menu_func_import" := hnm.not_mem_erase
    simp [List.erase_of_not_mem hop2, List.erase_of_not_mem hm2,
      List.erase_of_not_mem hpref2]
  · intro hop hpref
    rw [unregister_result_eq, List.erase_of_not_mem hop]
    simp [hpref]

/-- Witness for C2: concrete state of the failed-dependency path
(preferences registered, operator never registered): the second call
changes nothing and the first call does not raise. -/
theorem unregister_idempotent_and_safe_witness :
    (unregister
        (unregister
          { registered := ["ASEAddonPreferences"], importMenu := [],
            installFailed := true, sysPath := [] }).2.1).2.1 =
      (unregister
        { registered := ["ASEAddonPreferences"], importMenu := [],
          installFailed := true, sysPath := [] }).2.1 ∧
    (unregister
        { registered := ["ASEAddonPreferences"], importMenu := [],
          installFailed := true, sysPath := [] }).1 = Except.ok () := by
  have h := unregister_idempotent_and_safe
    { registered := ["ASEAddonPreferences"], importMenu := [],
      installFailed := true, sysPath := [] }
    (by decide) (by decide)
  exact ⟨h.1, h.2 (by decide) (by decide)⟩

/-! ### Theorems about `register` -/

/-- C1: when the dependency check returns `False`, `register` does not
register the `ImportASEMolecule` operator and does not append any menu
entry; it sets the preferences' `install_failed` flag to `True`, so that
the preferences panel's `draw` displays the failure message (and it
displays the success message otherwise). -/
theorem register_dependency_failed (env : DepEnv) (s : BState)
    (hpref : "ASEAddonPreferences" ∉ s.registered)
    (hdep : (check_dependency env ⟨s.sysPath⟩).1 = Except.ok false) :
    (register env s).1 = Except.ok () ∧
    countAction (register env s).2.2 (.registerClass "ImportASEMolecule") = 0 ∧
    (∀ f, Action.menuAppend f ∉ (register env s).2.2) ∧
    (register env s).2.1.registered = s.registered ++ ["ASEAddonPreferences"] ∧
    (register env s).2.1.importMenu = s.importMenu ∧
    (register env s).2.1.installFailed = true ∧
    ASEAddonPreferences.draw ⟨(register env s).2.1.installFailed⟩ =
      ("ASE installation failed. Please check your internet connection.",
        "ERROR") ∧
    ASEAddonPreferences.draw ⟨false⟩ =
      ("ASE installation successful.", "CHECKMARK") := by
  have h1 : registerClassOp "ASEAddonPreferences" s =
      (.ok (), { s with registered := s.registered ++ ["ASEAddonPreferences"] },
        [.registerClass "ASEAddonPreferences"]) := by
    simp [registerClassOp, hpref]
  rcases hcd : check_dependency env ⟨s.sysPath⟩ with ⟨r, sys2, t2⟩
  have hr : r = Except.ok false := by rw [hcd] at hdep; exact hdep
  subst hr
  have hnr : ∀ a ∈ t2, a.touchesRegistry = false := by
    have h := check_dependency_no_registry_action env ⟨s.sysPath⟩
    rw [hcd] at h; exact h
  have hcnt : countAction t2 (.registerClass "ImportASEMolecule") = 0 := by
    have h := check_dependency_count_registry_zero env ⟨s.sysPath⟩
      (.registerClass "ImportASEMolecule") rfl
    rw [hcd] at h; exact h
  have hkey : register env s =
      (Except.ok (),
        { s with registered := s.registered ++ ["ASEAddonPreferences"],
                 sysPath := sys2.sysPath, installFailed := true },
        [Action.registerClass "ASEAddonPreferences"] ++ t2 ++
          [Action.setInstallFailed true]) := by
    unfold register
    rw [h1]
    dsimp only
    rw [hcd]
    simp
  refine ⟨by rw [hkey], ?_, ?_, by rw [hkey], by rw [hkey], by rw [hkey],
    by rw [hkey]; simp [ASEAddonPreferences.draw],
    by simp [ASEAddonPreferences.draw]⟩
  · rw [hkey]
    simp only [countAction, List.countP_append] at hcnt ⊢
    simp [hcnt]
  · intro f
    rw [hkey]
    simp only [List.mem_append, List.mem_singleton]
    rintro ((h | h) | h)
    · exact Action.noConfusion h
    · have := hnr _ h
      simp [Action.touchesRegistry] at this
    · exact Action.noConfusion h

/-- Witness for C1: concrete failing environment from the empty state. -/
theorem register_dependency_failed_witness :
    (register envPipFails emptyBState).1 = Except.ok () ∧
    (register envPipFails emptyBState).2.1.registered =
      ["ASEAddonPreferences"] ∧
    (register envPipFails emptyBState).2.1.installFailed = true := by
  have h := register_dependency_failed envPipFails emptyBState
    (by decide) rfl
  exact ⟨h.1, h.2.2.2.1, h.2.2.2.2.2.1⟩

/-- C3: when the dependency check returns `True`, `register` registers the
`ImportASEMolecule` operator exactly once and appends the menu entry to
the File > Import menu exactly once. -/
theorem register_dependency_ok (env : DepEnv) (s : BState)
    (hpref : "ASEAddonPreferences" ∉ s.registered)
    (hop : "ImportASEMolecule" ∉ s.registered)
    (hdep : (check_dependency env ⟨s.sysPath⟩).1 = Except.ok true) :
    (register env s).1 = Except.ok () ∧
    countAction (register env s).2.2 (.registerClass "ImportASEMolecule") = 1 ∧
    countAction (register env s).2.2 (.menuAppend "menu_func_import") = 1 ∧
    (register env s).2.1.registered =
      s.registered ++ ["ASEAddonPreferences", "ImportASEMolecule"] ∧
    (register env s).2.1.importMenu = s.importMenu ++ ["menu_func_import"] := by
  have h1 : registerClassOp "ASEAddonPreferences" s =
      (.ok (), { s with registered := s.registered ++ ["ASEAddonPreferences"] },
        [.registerClass "ASEAddonPreferences"]) := by
    simp [registerClassOp, hpref]
  rcases hcd : check_dependency env ⟨s.sysPath⟩ with ⟨r, sys2, t2⟩
  have hr : r = Except.ok true := by rw [hcd] at hdep; exact hdep
  subst hr
  have hcnt1 : countAction t2 (.registerClass "ImportASEMolecule") = 0 := by
    have h := check_dependency_count_registry_zero env ⟨s.sysPath⟩
      (.registerClass "ImportASEMolecule") rfl
    rw [hcd] at h; exact h
  have hcnt2 : countAction t2 (.menuAppend "menu_func_import") = 0 := by
    have h := check_dependency_count_registry_zero env ⟨s.sysPath⟩
      (.menuAppend "menu_func_import") rfl
    rw [hcd] at h; exact h
  have hop2 : "ImportASEMolecule" ∉ s.registered ++ ["ASEAddonPreferences"] := by
    simp [hop]
  have h2 : registerClassOp "ImportASEMolecule"
      { s with registered := s.registered ++ ["ASEAddonPreferences"],
               sysPath := sys2.sysPath } =
      (.ok (),
        { s with
            registered := (s.registered ++ ["ASEAddonPreferences"]) ++
              ["ImportASEMolecule"],
            sysPath := sys2.sysPath },
        [.registerClass "ImportASEMolecule"]) := by
    simp [registerClassOp, hop2]
  have hkey : register env s =
      (Except.ok (),
        { s with
            registered := (s.registered ++ ["ASEAddonPreferences"]) ++
              ["ImportASEMolecule"],
            sysPath := sys2.sysPath,
            importMenu := s.importMenu ++ ["menu_func_import"] },
        ([Action.registerClass "ASEAddonPreferences"] ++ t2 ++
          [Action.registerClass "ImportASEMolecule"]) ++
          [Action.menuAppend "menu_func_import"]) := by
    unfold register
    rw [h1]
    dsimp only
    rw [hcd]
    simp [h2, menuAppendOp]
  refine ⟨by rw [hkey], ?_, ?_, by rw [hkey]; simp, by rw [hkey]⟩
  · rw [hkey]
    simp only [countAction, List.countP_append] at hcnt1 ⊢
    simp [hcnt1]
  · rw [hkey]
    simp only [countAction, List.countP_append] at hcnt2 ⊢
    simp [hcnt2]

/-- Witness for C3: concrete succeeding environment from the empty
state — the operator and the menu entry each appear exactly once. -/
theorem register_dependency_ok_witness :
    countAction (register envAsePresent emptyBState).2.2
      (.registerClass "ImportASEMolecule") = 1 ∧
    (register envAsePresent emptyBState).2.1.importMenu =
      ["menu_func_import"] := by
  have h := register_dependency_ok envAsePresent emptyBState
    (by decide) (by decide) rfl
  exact ⟨h.2.1, h.2.2.2.2⟩

/-- C10: `register` registers the `ASEAddonPreferences` class first, before
the dependency check runs — whatever the environment does, the first
recorded action is that registration and the class ends up registered. -/
theorem register_prefs_unconditional (env : DepEnv) (s : BState)
    (hpref : "ASEAddonPreferences" ∉ s.registered) :
    (register env s).2.2.head? =
      some (Action.registerClass "ASEAddonPreferences") ∧
    "ASEAddonPreferences" ∈ (register env s).2.1.registered := by
  have h1 : registerClassOp "ASEAddonPreferences" s =
      (.ok (), { s with registered := s.registered ++ ["ASEAddonPreferences"] },
        [.registerClass "ASEAddonPreferences"]) := by
    simp [registerClassOp, hpref]
  rcases hcd : check_dependency env ⟨s.sysPath⟩ with ⟨r, sys2, t2⟩
  unfold register
  rw [h1]
  dsimp only
  rw [hcd]
  rcases r with e | dep
  · simp
  · rcases dep with _ | _
    · simp
    · rcases h2 : registerClassOp "ImportASEMolecule"
        { s with registered := s.registered ++ ["ASEAddonPreferences"],
                 sysPath := sys2.sysPath } with ⟨r2, s3, t3⟩
      have hs3 : "ASEAddonPreferences" ∈ s3.registered := by
        rcases r2 with e2 | u
        · unfold registerClassOp at h2
          by_cases hm : "ImportASEMolecule" ∈
              s.registered ++ ["ASEAddonPreferences"]
          · simp [hm] at h2
            rw [← h2.2.1]
            simp
          · simp [hm] at h2
        · unfold registerClassOp at h2
          by_cases hm : "ImportASEMolecule" ∈
              s.registered ++ ["ASEAddonPreferences"]
          · simp [hm] at h2
          · simp [hm] at h2
            rw [← h2.1]
            simp
      dsimp only
      rw [h2]
      rcases r2 with e2 | u
      · simp [hs3]
      · simp [menuAppendOp, hs3]

/-- Witness for C10: in the failing environment the preferences class is
still registered first. -/
theorem register_prefs_unconditional_witness :
    (register envPipFails emptyBState).2.2.head? =
      some (Action.registerClass "ASEAddonPreferences") ∧
    "ASEAddonPreferences" ∈ (register envPipFails emptyBState).2.1.registered :=
  register_prefs_unconditional envPipFails emptyBState (by decide)

/-! ### Theorems about `execute` -/

/-- C9: `execute` returns `{"FINISHED"}` for every input, and with an
empty `files` collection it makes no invocation of the external import
function. -/
theorem execute_always_finished (op : ImportASEMolecule) :
    (op.execute).2 = ["FINISHED"] ∧
    (op.files = [] → (op.execute).1 = []) := by
  refine ⟨rfl, fun h => ?_⟩
  simp [ImportASEMolecule.execute, h]

/-- Witness for C9: the default operator state has no files — `execute`
returns `{"FINISHED"}` and performs no call. -/
theorem execute_always_finished_witness :
    (opNoFiles.execute).2 = ["FINISHED"] ∧ (opNoFiles.execute).1 = [] :=
  ⟨(execute_always_finished opNoFiles).1,
    (execute_always_finished opNoFiles).2 rfl⟩

/-- C6: every invocation that `execute` performs passes the UI-bound
configuration field values verbatim as the keyword arguments of
`import_ase_molecule` (the `zero_cell` field travels under the keyword
`shift_cell`). -/
theorem execute_passes_fields_verbatim (op : ImportASEMolecule)
    (c : ImportCallArgs) (hc : c ∈ (op.execute).1) :
    c.resolution = op.resolution ∧ c.color = op.color ∧
    c.colorbonds = op.colorbonds ∧ c.fix_bonds = op.fix_bonds ∧
    c.scale = op.scale ∧ c.unit_cell = op.unit_cell ∧
    c.representation = op.representation ∧
    c.read_density = op.read_density ∧ c.shift_cell = op.zero_cell ∧
    c.imageslice = op.imageslice ∧ c.animate = op.animate ∧
    c.outline = op.outline ∧ c.overwrite = op.overwrite ∧
    c.add_supercell = op.add_supercell := by
  simp only [ImportASEMolecule.execute, List.mem_map] at hc
  obtain ⟨f, hf, rfl⟩ := hc
  exact ⟨rfl, rfl, rfl, rfl, rfl, rfl, rfl, rfl, rfl, rfl, rfl, rfl, rfl,
    rfl⟩

/-- Witness for C6: the one call of the one-file operator state carries
exactly the operator's field values. -/
theorem execute_passes_fields_verbatim_witness :
    callOneFile ∈ (opOneFile.execute).1 ∧
    (callOneFile.resolution = opOneFile.resolution ∧
      callOneFile.color = opOneFile.color ∧
      callOneFile.colorbonds = opOneFile.colorbonds ∧
      callOneFile.fix_bonds = opOneFile.fix_bonds ∧
      callOneFile.scale = opOneFile.scale ∧
      callOneFile.unit_cell = opOneFile.unit_cell ∧
      callOneFile.representation = opOneFile.representation ∧
      callOneFile.read_density = opOneFile.read_density ∧
      callOneFile.shift_cell = opOneFile.zero_cell ∧
      callOneFile.imageslice = opOneFile.imageslice ∧
      callOneFile.animate = opOneFile.animate ∧
      callOneFile.outline = opOneFile.outline ∧
      callOneFile.overwrite = opOneFile.overwrite ∧
      callOneFile.add_supercell = opOneFile.add_supercell) := by
  have hmem : callOneFile ∈ (opOneFile.execute).1 :=
    List.mem_singleton.mpr rfl
  exact ⟨hmem, execute_passes_fields_verbatim opOneFile callOneFile hmem⟩

/-- C5 counterexample: with two selected files `execute` invokes the
external import function twice, not a single time. -/
theorem execute_two_files_two_calls :
    (opTwoFiles.execute).1.length = 2 ∧
    (opTwoFiles.execute).1.length ≠ 1 := by
  refine ⟨rfl, ?_⟩
  decide

/-- C5 (amended): `execute` performs one invocation of
`import_ase_molecule` per entry of the `files` collection; each
invocation passes the directory joined with that file's name, the file's
name, and the 14 named configuration values from the operator's
properties. -/
theorem execute_one_call_per_file (op : ImportASEMolecule)
    (i : Nat) (h : i < (op.execute).1.length) (h2 : i < op.files.length) :
    (op.execute).1.length = op.files.length ∧
    ((op.execute).1.get ⟨i, h⟩).filepath =
      osPathJoin op.directory (op.files.get ⟨i, h2⟩).name ∧
    ((op.execute).1.get ⟨i, h⟩).filename = (op.files.get ⟨i, h2⟩).name ∧
    ((op.execute).1.get ⟨i, h⟩).resolution = op.resolution ∧
    ((op.execute).1.get ⟨i, h⟩).color = op.color ∧
    ((op.execute).1.get ⟨i, h⟩).colorbonds = op.colorbonds ∧
    ((op.execute).1.get ⟨i, h⟩).fix_bonds = op.fix_bonds ∧
    ((op.execute).1.get ⟨i, h⟩).scale = op.scale ∧
    ((op.execute).1.get ⟨i, h⟩).unit_cell = op.unit_cell ∧
    ((op.execute).1.get ⟨i, h⟩).representation = op.representation ∧
    ((op.execute).1.get ⟨i, h⟩).read_density = op.read_density ∧
    ((op.execute).1.get ⟨i, h⟩).shift_cell = op.zero_cell ∧
    ((op.execute).1.get ⟨i, h⟩).imageslice = op.imageslice ∧
    ((op.execute).1.get ⟨i, h⟩).animate = op.animate ∧
    ((op.execute).1.get ⟨i, h⟩).outline = op.outline ∧
    ((op.execute).1.get ⟨i, h⟩).overwrite = op.overwrite ∧
    ((op.execute).1.get ⟨i, h⟩).add_supercell = op.add_supercell := by
  have hget : (op.execute).1.get ⟨i, h⟩ =
      { filepath := osPathJoin op.directory (op.files.get ⟨i, h2⟩).name
        filename := (op.files.get ⟨i, h2⟩).name
        resolution := op.resolution
        color := op.color
        colorbonds := op.colorbonds
        fix_bonds := op.fix_bonds
        scale := op.scale
        unit_cell := op.unit_cell
        representation := op.representation
        read_density := op.read_density
        shift_cell := op.zero_cell
        imageslice := op.imageslice
        animate := op.animate
        outline := op.outline
        overwrite := op.overwrite
        add_supercell := op.add_supercell } := by
    simp [ImportASEMolecule.execute, List.get_eq_getElem, List.getElem_map]
  refine ⟨by simp [ImportASEMolecule.execute], ?_⟩
  rw [hget]
  exact ⟨rfl, rfl, rfl, rfl, rfl, rfl, rfl, rfl, rfl, rfl, rfl, rfl, rfl,
    rfl, rfl, rfl⟩

/-- Witness for C5 (amended): concrete two-file state, first invocation. -/
theorem execute_one_call_per_file_witness :
    (opTwoFiles.execute).1.length = opTwoFiles.files.length ∧
    ((opTwoFiles.execute).1.get ⟨0, by decide⟩).filename = "a.xyz" := by
  have h := execute_one_call_per_file opTwoFiles 0 (by decide) (by decide)
  refine ⟨h.1, ?_⟩
  rw [h.2.2.1]
  rfl

end BlenderImportASE
